import Mathlib

/-!
Verification of `scripts/fetch_telegram_updates.py` (class `TelegramFetcher`).

The script is embedded shallowly: the remote content store (the checkpoint
file `data/last-update-id.json` and the queue file
`data/pending-messages.json`) is a `Store` value threaded through the run,
raw Telegram updates are typed records, and the external collaborators
(Telegram `getFile`, the binary download, the GitHub image upload, the
queue-document write, the checkpoint write) are oracles collected in
environments, where `none` / `false` outcomes model the corresponding
Python exception being raised at that call site.  Wall-clock time
(`datetime.utcnow()`) is an explicit `now` parameter.
-/

namespace TBlog

/-- One entry of `message["photo"]`: a photo size variant offered by
Telegram, carrying its `file_id` and optional `file_size`. -/
structure PhotoSize where
  file_id : String
  file_size : Option Int
  deriving DecidableEq, Repr

/-- `message["from"]`: sender metadata.  `process_message` reads `id`
unconditionally and the remaining fields with `.get`, so `id` is required
here and the rest optional. -/
structure FromUser where
  id : Int
  username : Option String
  first_name : Option String
  last_name : Option String
  is_bot : Bool
  deriving DecidableEq, Repr

/-- A raw Telegram message as consumed by the script: `message_id`, unix
`date`, optional `text` and `caption` (`none` models an absent key),
`photo` (the empty list models an absent or empty `"photo"` entry),
`chat.id` and `from`. -/
structure Message where
  message_id : Int
  date : Int
  text : Option String
  caption : Option String
  photo : List PhotoSize
  chat_id : Int
  from_user : FromUser
  deriving DecidableEq, Repr

/-- One element of the `getUpdates` result: `update_id` plus an optional
`"message"` payload (`run` skips updates without one). -/
structure Update where
  update_id : Int
  message : Option Message
  deriving DecidableEq, Repr

/-- The image dict returned by `_process_image` and appended to
`message_data["images"]`. -/
structure ImageInfo where
  filename : String
  path : String
  caption : String
  file_id : String
  file_size : Option Int
  deriving DecidableEq, Repr

/-- The `from_user` sub-dict of a processed message: the four fields
`process_message` copies out of `message["from"]` (note `is_bot` is not
copied). -/
structure FromUserData where
  id : Int
  username : Option String
  first_name : Option String
  last_name : Option String
  deriving DecidableEq, Repr

/-- The `message_data` dict built by `process_message` — the record that
ends up in the pending queue. -/
structure MessageData where
  id : String
  telegram_message_id : Int
  content : String
  images : List ImageInfo
  timestamp : String
  status : String
  tags : List String
  created_at : String
  chat_id : Int
  from_user : FromUserData
  deriving DecidableEq, Repr

/-- Content of `data/last-update-id.json` as stored: either JSON that
parses to an object (whose `last_update_id` key may be absent), or
unparseable garbage. -/
inductive CheckpointFile where
  | parsed (last_update_id : Option Int)
  | garbage
  deriving DecidableEq, Repr

/-- The parsed body of `data/pending-messages.json`. -/
structure QueueDoc where
  messages : List MessageData
  lastUpdated : String
  version : String
  deriving DecidableEq, Repr

/-- Content of `data/pending-messages.json` as stored: a well-formed
document or unparseable garbage (the `json.JSONDecodeError` branch). -/
inductive QueueFile where
  | parsed (doc : QueueDoc)
  | garbage
  deriving DecidableEq, Repr

/-- The remote content store as the script sees it: the checkpoint file
and the queue file, `none` meaning the file does not exist (a 404 from
GitHub). -/
structure Store where
  checkpoint : Option CheckpointFile
  queue : Option QueueFile
  deriving DecidableEq, Repr

/-- `TelegramFetcher._load_last_update_id`: read `data/last-update-id.json`;
a missing file, a parse error, or a missing `last_update_id` key all yield
`0` (errors are logged, not raised). -/
def load_last_update_id (cp : Option CheckpointFile) : Int :=
  match cp with
  | some (CheckpointFile.parsed (some n)) => n
  | some (CheckpointFile.parsed none) => 0
  | some CheckpointFile.garbage => 0
  | none => 0

/-- Models `datetime.fromtimestamp(message["date"]).isoformat()`: a pure
rendering of the unix timestamp.  The calendar formatting itself is
abstracted to a tagged decimal rendering; only its purity (it is a
function of `date` alone) matters for the properties below. -/
def isoFromTimestamp (d : Int) : String :=
  "ts:" ++ toString d

/-- The id derivation in `process_message`:
`f"msg_{message['date']}_{message['message_id']}"`. -/
def message_id_of (m : Message) : String :=
  "msg_" ++ toString m.date ++ "_" ++ toString m.message_id

/-- Python truthiness of `message.get("text")` / `message.get("caption")`:
an absent key or an empty string is falsy. -/
def truthyStr : Option String → Bool
  | none => false
  | some s => s ≠ ""

/-- `message.get("text") or message.get("caption", "")`: the text when it
is truthy, otherwise the caption defaulted to `""`. -/
def contentOf (text caption : Option String) : String :=
  match text with
  | some t => if t = "" then caption.getD "" else t
  | none => caption.getD ""

/-- External collaborators used by `_process_image`.
`getFilePath` merges the two failure modes of the `getFile` call (an HTTP
exception, or a reply without `"file_path"`) into `none`; `download` is the
binary fetch (`none` models `urlopen` raising); `uploadOk` tells whether
the GitHub `PUT` of the image succeeds or raises. -/
structure ImageEnv where
  getFilePath : String → Option String
  download : String → Option String
  uploadOk : String → Bool

/-- `TelegramFetcher._process_image`: take the LAST photo variant
(`message["photo"][-1]`), resolve its `file_path`, download the bytes,
upload them to `static/images/...`; any failure on the way is caught and
turned into `None`.  An empty photo list would raise `IndexError`, caught
by the enclosing `except` — also `none`. -/
def processImage (env : ImageEnv) (message : Message) (message_id : String) :
    Option ImageInfo :=
  match message.photo.getLast? with
  | none => none
  | some photo =>
    match env.getFilePath photo.file_id with
    | none => none
    | some fpath =>
      match env.download fpath with
      | none => none
      | some _data =>
        let filename := message_id ++ "_" ++ photo.file_id ++ ".jpg"
        let image_path := "static/images/" ++ message_id ++ "/" ++ filename
        if env.uploadOk image_path then
          some { filename := filename
               , path := "/images/" ++ message_id ++ "/" ++ filename
               , caption := message.caption.getD ""
               , file_id := photo.file_id
               , file_size := photo.file_size }
        else none

/-- `TelegramFetcher.process_message`: build the `message_data` dict.
`now` stands for `datetime.utcnow().isoformat()` taken at call time. -/
def process_message (env : ImageEnv) (now : String) (message : Message) :
    MessageData :=
  let timestamp := isoFromTimestamp message.date
  let message_id := message_id_of message
  let images :=
    if message.photo.isEmpty then []
    else
      match processImage env message message_id with
      | some info => [info]
      | none => []
  { id := message_id
  , telegram_message_id := message.message_id
  , content := contentOf message.text message.caption
  , images := images
  , timestamp := timestamp
  , status := "pending"
  , tags := []
  , created_at := now
  , chat_id := message.chat_id
  , from_user :=
      { id := message.from_user.id
      , username := message.from_user.username
      , first_name := message.from_user.first_name
      , last_name := message.from_user.last_name } }

/-- The `pending_data` value `add_to_pending_queue` works with after the
read: the parsed document when the file exists and parses, otherwise the
fresh `{"messages": [], "lastUpdated": now, "version": "1.0"}`
structure. -/
def readPendingDoc (now : String) (qf : Option QueueFile) : QueueDoc :=
  match qf with
  | some (QueueFile.parsed doc) => doc
  | some QueueFile.garbage => { messages := [], lastUpdated := now, version := "1.0" }
  | none => { messages := [], lastUpdated := now, version := "1.0" }

/-- The document `TelegramFetcher.add_to_pending_queue` writes back for one
message: read (or recreate) the pending document, append the single new
record, refresh `lastUpdated`. -/
def add_to_pending_queue (now : String) (qf : Option QueueFile)
    (md : MessageData) : QueueDoc :=
  let pending := readPendingDoc now qf
  { pending with
    messages := pending.messages ++ [md]
  , lastUpdated := now }

/-- The skip test in `TelegramFetcher.run` (lines 331–339): drop messages
whose sender `is_bot` is truthy, and messages with falsy `text`, empty
`photo` and falsy `caption`. -/
def skipMessage (m : Message) : Bool :=
  m.from_user.is_bot ||
    (!truthyStr m.text && m.photo.isEmpty && !truthyStr m.caption)

/-- The observable messages list of the stored queue file (empty for a
missing or unparseable file). -/
def queueMessages (qf : Option QueueFile) : List MessageData :=
  match qf with
  | some (QueueFile.parsed d) => d.messages
  | some QueueFile.garbage => []
  | none => []

/-- The environment of one `run` call: the wall clock, the image
collaborators, whether the k-th `PUT` of `data/pending-messages.json`
succeeds (false models `_github_create_or_update_file` raising, e.g. a
network error or a GitHub 409 conflict), and whether the `PUT` of
`data/last-update-id.json` succeeds. -/
structure RunEnv where
  now : String
  image : ImageEnv
  queueWriteOk : Nat → Bool
  checkpointSaveOk : Bool

/-- The loop state of `TelegramFetcher.run`: the store as mutated so far,
`last_id`, `processed_count`, and how many queue-document writes have been
attempted. -/
structure RunState where
  store : Store
  last_id : Int
  processed : Nat
  queueWriteAttempts : Nat
  deriving Repr

/-- One iteration of the `for update in updates` loop in
`TelegramFetcher.run`: record `update_id` into `last_id`, skip updates
without a message, skip bot or contentless messages, otherwise process the
message and append it to the pending queue; an exception from the queue
write is caught by the per-message handler, leaving the store unchanged
and `processed_count` not incremented. -/
def runStep (env : RunEnv) (st : RunState) (u : Update) : RunState :=
  let st := { st with last_id := u.update_id }
  match u.message with
  | none => st
  | some m =>
    if skipMessage m then st
    else
      let md := process_message env.image env.now m
      let doc := add_to_pending_queue env.now st.store.queue md
      if env.queueWriteOk st.queueWriteAttempts then
        { st with
          store := { st.store with queue := some (QueueFile.parsed doc) }
        , processed := st.processed + 1
        , queueWriteAttempts := st.queueWriteAttempts + 1 }
      else
        { st with queueWriteAttempts := st.queueWriteAttempts + 1 }

/-- The outcome of one `run` call: the store afterwards, the process exit
code, `processed_count`, and counts of write attempts on the queue and
checkpoint documents. -/
structure RunResult where
  store : Store
  exitCode : Nat
  processed : Nat
  queueWriteAttempts : Nat
  checkpointWriteAttempts : Nat
  deriving Repr

/-- `TelegramFetcher.run` after a successful `fetch_updates` returning
`updates`: an empty batch returns immediately; otherwise iterate the loop,
then save `last_id` as the new checkpoint if it grew (`_save_last_update_id`
swallows its own errors, so a failed save leaves the file unchanged and
the run still succeeds).  Within this model no exception reaches the outer
handler, so the exit code is 0. -/
def run (env : RunEnv) (updates : List Update) (store : Store) : RunResult :=
  let last0 := load_last_update_id store.checkpoint
  if updates.isEmpty then
    { store := store, exitCode := 0, processed := 0
    , queueWriteAttempts := 0, checkpointWriteAttempts := 0 }
  else
    let final := updates.foldl (runStep env)
      { store := store, last_id := last0, processed := 0, queueWriteAttempts := 0 }
    if final.last_id > last0 then
      if env.checkpointSaveOk then
        { store := { final.store with
                     checkpoint := some (CheckpointFile.parsed (some final.last_id)) }
        , exitCode := 0, processed := final.processed
        , queueWriteAttempts := final.queueWriteAttempts
        , checkpointWriteAttempts := 1 }
      else
        { store := final.store, exitCode := 0, processed := final.processed
        , queueWriteAttempts := final.queueWriteAttempts
        , checkpointWriteAttempts := 1 }
    else
      { store := final.store, exitCode := 0, processed := final.processed
      , queueWriteAttempts := final.queueWriteAttempts
      , checkpointWriteAttempts := 0 }

/-- The record `run` would enqueue for one update: `none` when the update
is skipped (no message, bot sender, or no content), otherwise the
processed message data. -/
def keptRecord (env : RunEnv) (u : Update) : Option MessageData :=
  match u.message with
  | none => none
  | some m => if skipMessage m then none else some (process_message env.image env.now m)

/-- The records a run tries to enqueue, in batch order. -/
def keptRecords (env : RunEnv) (us : List Update) : List MessageData :=
  us.filterMap (keptRecord env)

/-- The value `last_id` holds after the loop: the `update_id` of the last
update of the batch, or the loaded checkpoint when the batch is empty.
Every update contributes, skipped or not. -/
def lastIdFold (last0 : Int) (us : List Update) : Int :=
  us.foldl (fun _ u => u.update_id) last0

/-- Iterated single-record merges, as the per-message loop performs them
on the stored queue file. -/
def mergeAllDocs (now : String) (qf : Option QueueFile) :
    List MessageData → Option QueueFile
  | [] => qf
  | md :: rest =>
      mergeAllDocs now (some (QueueFile.parsed (add_to_pending_queue now qf md))) rest

/-- A sequence of runs, each with its own environment and fetched batch,
threading the store. -/
def applyRuns : List (RunEnv × List Update) → Store → Store
  | [], s => s
  | (e, us) :: rest, s => applyRuns rest (run e us s).store

/-! Concrete fixtures used by counterexamples and witnesses. -/

/-- A human sender. -/
def userAlice : FromUser := ⟨7, some "alice", some "Alice", none, false⟩

/-- An automated sender (`is_bot = true`). -/
def botUser : FromUser := ⟨99, some "autobot", none, none, true⟩

/-- A plain text message from a human. -/
def msgHello : Message := ⟨11, 111, some "Hello", none, [], 5, userAlice⟩

/-- A second plain text message from a human. -/
def msgWorld : Message := ⟨14, 114, some "World", none, [], 5, userAlice⟩

/-- A text message authored by the automated sender. -/
def msgBot : Message := ⟨12, 112, some "spam", none, [], 5, botUser⟩

/-- A caption-only photo message (the spec's id-103 scenario): no text,
caption `"pic"`, two photo variants listed small-to-large. -/
def msgPic : Message :=
  ⟨33, 333, none, some "pic", [⟨"small", some 1⟩, ⟨"large", some 2⟩], 5, userAlice⟩

/-- A photo message whose variants are listed LARGEST FIRST: the first
variant has size 100, the last size 1. -/
def msgPhotosDescending : Message :=
  ⟨9, 222, none, some "pic", [⟨"big", some 100⟩, ⟨"tiny", some 1⟩], 5, userAlice⟩

/-- Updates wrapping the fixture messages. -/
def updHello : Update := ⟨101, some msgHello⟩

/-- Update 102 carrying the bot message. -/
def updBot : Update := ⟨102, some msgBot⟩

/-- Update 102 carrying the second human message. -/
def updWorld : Update := ⟨102, some msgWorld⟩

/-- Update 103 carrying the caption-only photo message. -/
def updPic : Update := ⟨103, some msgPic⟩

/-- An empty store: neither checkpoint nor queue file exists yet. -/
def store0 : Store := ⟨none, none⟩

/-- Image collaborators that all succeed. -/
def imageEnvOk : ImageEnv :=
  ⟨fun _ => some "photos/f.jpg", fun _ => some "bytes", fun _ => true⟩

/-- Image collaborators whose binary download always fails. -/
def imageEnvNoDownload : ImageEnv :=
  ⟨fun _ => some "photos/f.jpg", fun _ => none, fun _ => true⟩

/-- A fully successful run environment at time `T1`. -/
def envOkT1 : RunEnv := ⟨"T1", imageEnvOk, fun _ => true, true⟩

/-- A fully successful run environment at a later time `T2`. -/
def envOkT2 : RunEnv := ⟨"T2", imageEnvOk, fun _ => true, true⟩

/-- A run whose checkpoint save fails (crash-and-retry simulation). -/
def envSaveFailT1 : RunEnv := ⟨"T1", imageEnvOk, fun _ => true, false⟩

/-- A run in which every queue-document write raises. -/
def envQueueFail : RunEnv := ⟨"T1", imageEnvOk, fun _ => false, true⟩

/-- A successful run except that attachment downloads fail. -/
def envPicFail : RunEnv := ⟨"T1", imageEnvNoDownload, fun _ => true, true⟩

/-! General lemmas about the loop and the run. -/

lemma readPendingDoc_messages (now : String) (qf : Option QueueFile) :
    (readPendingDoc now qf).messages = queueMessages qf := by
  cases qf with
  | none => rfl
  | some f => cases f <;> rfl

lemma queueMessages_mergeAllDocs (now : String) :
    ∀ (mds : List MessageData) (qf : Option QueueFile),
      queueMessages (mergeAllDocs now qf mds) = queueMessages qf ++ mds
  | [], qf => by simp [mergeAllDocs]
  | md :: rest, qf => by
      rw [mergeAllDocs, queueMessages_mergeAllDocs now rest]
      simp [queueMessages, add_to_pending_queue, readPendingDoc_messages]

/-- The record id does not depend on the environment or the clock. -/
lemma process_message_id (env : ImageEnv) (now : String) (m : Message) :
    (process_message env now m).id = message_id_of m := rfl

/-- With every queue write succeeding, the loop appends exactly the kept
records, one write per record, and leaves the checkpoint file alone. -/
lemma foldl_runStep_allOk (env : RunEnv) (hw : ∀ k, env.queueWriteOk k = true)
    (us : List Update) : ∀ st : RunState,
      us.foldl (runStep env) st =
        { store := { checkpoint := st.store.checkpoint
                   , queue := mergeAllDocs env.now st.store.queue (keptRecords env us) }
        , last_id := lastIdFold st.last_id us
        , processed := st.processed + (keptRecords env us).length
        , queueWriteAttempts := st.queueWriteAttempts + (keptRecords env us).length } := by
  induction us with
  | nil => intro st; simp [keptRecords, mergeAllDocs, lastIdFold]
  | cons u us ih =>
    intro st
    rw [List.foldl_cons]
    cases hm : u.message with
    | none =>
        rw [show runStep env st u = { st with last_id := u.update_id } from by
          simp [runStep, hm]]
        rw [ih]
        simp [keptRecords, keptRecord, hm, lastIdFold]
    | some m =>
        by_cases hs : skipMessage m = true
        · rw [show runStep env st u = { st with last_id := u.update_id } from by
            simp [runStep, hm, hs]]
          rw [ih]
          simp [keptRecords, keptRecord, hm, hs, lastIdFold]
        · have hq := hw st.queueWriteAttempts
          rw [show runStep env st u =
              { st with
                store := { st.store with queue := some (QueueFile.parsed
                  (add_to_pending_queue env.now st.store.queue
                    (process_message env.image env.now m))) }
              , last_id := u.update_id
              , processed := st.processed + 1
              , queueWriteAttempts := st.queueWriteAttempts + 1 } from by
            simp [runStep, hm, hs, hq]]
          rw [ih]
          simp [keptRecords, keptRecord, hm, hs, lastIdFold, mergeAllDocs]
          omega

/-- With every queue write failing, the loop changes nothing in the store:
each kept record costs one failed write attempt and is dropped. -/
lemma foldl_runStep_allFail (env : RunEnv) (hf : ∀ k, env.queueWriteOk k = false)
    (us : List Update) : ∀ st : RunState,
      us.foldl (runStep env) st =
        { store := st.store
        , last_id := lastIdFold st.last_id us
        , processed := st.processed
        , queueWriteAttempts := st.queueWriteAttempts + (keptRecords env us).length } := by
  induction us with
  | nil => intro st; simp [keptRecords, lastIdFold]
  | cons u us ih =>
    intro st
    rw [List.foldl_cons]
    cases hm : u.message with
    | none =>
        rw [show runStep env st u = { st with last_id := u.update_id } from by
          simp [runStep, hm]]
        rw [ih]
        simp [keptRecords, keptRecord, hm, lastIdFold]
    | some m =>
        by_cases hs : skipMessage m = true
        · rw [show runStep env st u = { st with last_id := u.update_id } from by
            simp [runStep, hm, hs]]
          rw [ih]
          simp [keptRecords, keptRecord, hm, hs, lastIdFold]
        · have hq := hf st.queueWriteAttempts
          rw [show runStep env st u =
              { st with
                last_id := u.update_id
              , queueWriteAttempts := st.queueWriteAttempts + 1 } from by
            simp [runStep, hm, hs, hq]]
          rw [ih]
          simp [keptRecords, keptRecord, hm, hs, lastIdFold]
          omega

/-- For ANY environment, the loop never touches the checkpoint file and
tracks `last_id` over every update. -/
lemma foldl_runStep_any (env : RunEnv) (us : List Update) : ∀ st : RunState,
    ((us.foldl (runStep env) st).store.checkpoint = st.store.checkpoint)
    ∧ ((us.foldl (runStep env) st).last_id = lastIdFold st.last_id us) := by
  induction us with
  | nil => intro st; exact ⟨rfl, rfl⟩
  | cons u us ih =>
    intro st
    rw [List.foldl_cons]
    cases hm : u.message with
    | none =>
        rw [show runStep env st u = { st with last_id := u.update_id } from by
          simp [runStep, hm]]
        exact ih _
    | some m =>
        by_cases hs : skipMessage m = true
        · rw [show runStep env st u = { st with last_id := u.update_id } from by
            simp [runStep, hm, hs]]
          exact ih _
        · by_cases hq : env.queueWriteOk st.queueWriteAttempts = true
          · rw [show runStep env st u =
                { st with
                  store := { st.store with queue := some (QueueFile.parsed
                    (add_to_pending_queue env.now st.store.queue
                      (process_message env.image env.now m))) }
                , last_id := u.update_id
                , processed := st.processed + 1
                , queueWriteAttempts := st.queueWriteAttempts + 1 } from by
              simp [runStep, hm, hs, hq]]
            exact ih _
          · rw [show runStep env st u =
                { st with
                  last_id := u.update_id
                , queueWriteAttempts := st.queueWriteAttempts + 1 } from by
              simp [runStep, hm, hs, hq]]
            exact ih _

/-- Full characterization of a run in which every queue write succeeds. -/
lemma run_allOk (env : RunEnv) (us : List Update) (s : Store)
    (hw : ∀ k, env.queueWriteOk k = true) :
    run env us s =
      { store :=
          { checkpoint :=
              if lastIdFold (load_last_update_id s.checkpoint) us >
                   load_last_update_id s.checkpoint ∧ env.checkpointSaveOk = true
              then some (CheckpointFile.parsed
                     (some (lastIdFold (load_last_update_id s.checkpoint) us)))
              else s.checkpoint
          , queue := mergeAllDocs env.now s.queue (keptRecords env us) }
      , exitCode := 0
      , processed := (keptRecords env us).length
      , queueWriteAttempts := (keptRecords env us).length
      , checkpointWriteAttempts :=
          if lastIdFold (load_last_update_id s.checkpoint) us >
               load_last_update_id s.checkpoint then 1 else 0 } := by
  cases us with
  | nil => simp [run, lastIdFold, keptRecords, mergeAllDocs]
  | cons u us' =>
    simp only [run, List.isEmpty_cons, Bool.false_eq_true, if_false]
    rw [foldl_runStep_allOk env hw]
    by_cases hgt : lastIdFold (load_last_update_id s.checkpoint) (u :: us') >
        load_last_update_id s.checkpoint
    · by_cases hsv : env.checkpointSaveOk = true
      · simp [hgt, hsv]
      · simp [hgt, hsv]
    · simp [hgt]

/-- Full characterization of a run in which every queue write fails: the
queue file is untouched, nothing is processed, yet the checkpoint is
still saved whenever `last_id` grew. -/
lemma run_allFail (env : RunEnv) (us : List Update) (s : Store)
    (hf : ∀ k, env.queueWriteOk k = false) :
    run env us s =
      { store :=
          { checkpoint :=
              if lastIdFold (load_last_update_id s.checkpoint) us >
                   load_last_update_id s.checkpoint ∧ env.checkpointSaveOk = true
              then some (CheckpointFile.parsed
                     (some (lastIdFold (load_last_update_id s.checkpoint) us)))
              else s.checkpoint
          , queue := s.queue }
      , exitCode := 0
      , processed := 0
      , queueWriteAttempts := (keptRecords env us).length
      , checkpointWriteAttempts :=
          if lastIdFold (load_last_update_id s.checkpoint) us >
               load_last_update_id s.checkpoint then 1 else 0 } := by
  cases us with
  | nil => simp [run, lastIdFold, keptRecords]
  | cons u us' =>
    simp only [run, List.isEmpty_cons, Bool.false_eq_true, if_false]
    rw [foldl_runStep_allFail env hf]
    by_cases hgt : lastIdFold (load_last_update_id s.checkpoint) (u :: us') >
        load_last_update_id s.checkpoint
    · by_cases hsv : env.checkpointSaveOk = true
      · simp [hgt, hsv]
      · simp [hgt, hsv]
    · simp [hgt]

/-- The checkpoint file after any run, for ANY environment: advanced to
the final `last_id` exactly when it grew and the save succeeded, otherwise
untouched. -/
lemma run_checkpoint (env : RunEnv) (us : List Update) (s : Store) :
    (run env us s).store.checkpoint =
      if lastIdFold (load_last_update_id s.checkpoint) us >
           load_last_update_id s.checkpoint ∧ env.checkpointSaveOk = true
      then some (CheckpointFile.parsed
             (some (lastIdFold (load_last_update_id s.checkpoint) us)))
      else s.checkpoint := by
  cases us with
  | nil => simp [run, lastIdFold]
  | cons u us' =>
    simp only [run, List.isEmpty_cons, Bool.false_eq_true, if_false]
    obtain ⟨hcp, hlast⟩ := foldl_runStep_any env (u :: us')
      { store := s, last_id := load_last_update_id s.checkpoint
      , processed := 0, queueWriteAttempts := 0 }
    dsimp only at hcp hlast
    set F := List.foldl (runStep env)
      { store := s, last_id := load_last_update_id s.checkpoint
      , processed := 0, queueWriteAttempts := 0 } (u :: us') with hF
    rw [hlast]
    by_cases hgt : lastIdFold (load_last_update_id s.checkpoint) (u :: us') >
        load_last_update_id s.checkpoint
    · by_cases hsv : env.checkpointSaveOk = true
      · simp [hgt, hsv]
      · simp [hgt, hsv, hcp]
    · simp [hgt, hcp]

/-- No run lowers the loaded checkpoint value. -/
lemma load_run_mono (env : RunEnv) (us : List Update) (s : Store) :
    load_last_update_id s.checkpoint
      ≤ load_last_update_id (run env us s).store.checkpoint := by
  rw [run_checkpoint]
  by_cases h : lastIdFold (load_last_update_id s.checkpoint) us >
      load_last_update_id s.checkpoint ∧ env.checkpointSaveOk = true
  · rw [if_pos h]
    exact le_of_lt h.1
  · rw [if_neg h]

/-- The last update of the batch determines the final `last_id`, whether
or not its message was skipped. -/
lemma lastIdFold_append (last0 : Int) (pre : List Update) (u : Update) :
    lastIdFold last0 (pre ++ [u]) = u.update_id := by
  simp [lastIdFold, List.foldl_append]

/-- The derived ids of the kept records do not depend on the run
environment (in particular not on the clock). -/
lemma keptRecords_map_id (env env' : RunEnv) (us : List Update) :
    (keptRecords env us).map MessageData.id
      = (keptRecords env' us).map MessageData.id := by
  induction us with
  | nil => rfl
  | cons u us ih =>
      cases hm : u.message with
      | none => simpa [keptRecords, keptRecord, hm] using ih
      | some m =>
          by_cases hs : skipMessage m = true
          · simpa [keptRecords, keptRecord, hm, hs] using ih
          · simp only [keptRecords, List.filterMap_cons, keptRecord, hm, hs, if_false]
            simp [process_message_id]
            exact ih

/-! Claim theorems. -/

/-- C1 counterexample: re-running the same one-message batch after a run
whose checkpoint save failed (the checkpoint demonstrably did not
advance) yields a queue document whose record ids are NOT duplicate-free:
`msg_111_11` appears twice. -/
theorem C1_counterexample :
    (run envSaveFailT1 [updHello] store0).store.checkpoint = store0.checkpoint
    ∧ ¬ List.Nodup
        ((queueMessages (run envOkT2 [updHello]
            (run envSaveFailT1 [updHello] store0).store).store.queue).map
          MessageData.id) := by
  constructor
  · decide
  · decide

/-- C1 (amended): merging is not idempotent.  Processing the same batch
twice without the checkpoint advancing appends the kept records a second
time; the derived ids are identical across the two runs, so whenever the
batch keeps at least one message the resulting queue document contains
two `PendingRecord`s with the same derived id. -/
theorem C1_remerge_appends_duplicates (env1 env2 : RunEnv) (us : List Update)
    (s : Store)
    (h1 : ∀ k, env1.queueWriteOk k = true) (h2 : ∀ k, env2.queueWriteOk k = true)
    (hsave : env1.checkpointSaveOk = false) :
    (run env1 us s).store.checkpoint = s.checkpoint
    ∧ queueMessages (run env2 us (run env1 us s).store).store.queue
        = queueMessages s.queue ++ keptRecords env1 us ++ keptRecords env2 us
    ∧ (keptRecords env1 us).map MessageData.id
        = (keptRecords env2 us).map MessageData.id
    ∧ (keptRecords env1 us ≠ [] →
        ¬ List.Nodup
          ((queueMessages (run env2 us (run env1 us s).store).store.queue).map
            MessageData.id)) := by
  have hcp1 : (run env1 us s).store.checkpoint = s.checkpoint := by
    rw [run_checkpoint]
    simp [hsave]
  have hq1 : (run env1 us s).store.queue
      = mergeAllDocs env1.now s.queue (keptRecords env1 us) := by
    rw [run_allOk env1 us s h1]
  have hq2 : queueMessages (run env2 us (run env1 us s).store).store.queue
      = queueMessages s.queue ++ keptRecords env1 us ++ keptRecords env2 us := by
    rw [run_allOk env2 us (run env1 us s).store h2]
    dsimp only
    rw [queueMessages_mergeAllDocs, hq1, queueMessages_mergeAllDocs]
  refine ⟨hcp1, hq2, keptRecords_map_id env1 env2 us, ?_⟩
  intro hne hnodup
  rw [hq2, List.map_append, List.map_append] at hnodup
  have hids := keptRecords_map_id env1 env2 us
  obtain ⟨x, hx⟩ := List.exists_mem_of_ne_nil
    ((keptRecords env1 us).map MessageData.id) (by simpa using hne)
  have hx2 : x ∈ (keptRecords env2 us).map MessageData.id := hids ▸ hx
  rcases List.nodup_append.mp hnodup with ⟨-, -, hdisj⟩
  exact hdisj (List.mem_append_right _ hx) hx2

/-- C1 witness: the amended theorem applied to the concrete
crash-and-retry scenario of the counterexample. -/
theorem C1_remerge_appends_duplicates_witness :
    (run envSaveFailT1 [updHello] store0).store.checkpoint = store0.checkpoint
    ∧ ¬ List.Nodup
        ((queueMessages (run envOkT2 [updHello]
            (run envSaveFailT1 [updHello] store0).store).store.queue).map
          MessageData.id) :=
  ⟨(C1_remerge_appends_duplicates envSaveFailT1 envOkT2 [updHello] store0
      (fun _ => rfl) (fun _ => rfl) rfl).1,
   (C1_remerge_appends_duplicates envSaveFailT1 envOkT2 [updHello] store0
      (fun _ => rfl) (fun _ => rfl) rfl).2.2.2 (by decide)⟩

/-- C2 counterexample: with the (single) queue write failing, the record
is never stored, yet the run exits 0 and the saved checkpoint moves from
0 to 101 — the claim said the run fails and the checkpoint stays put. -/
theorem C2_counterexample :
    (run envQueueFail [updHello] store0).queueWriteAttempts = 1
    ∧ (run envQueueFail [updHello] store0).store.queue = store0.queue
    ∧ (run envQueueFail [updHello] store0).exitCode = 0
    ∧ (run envQueueFail [updHello] store0).store.checkpoint
        = some (CheckpointFile.parsed (some 101))
    ∧ load_last_update_id store0.checkpoint = 0 := by decide

/-- C2 (amended): a failed queue write is caught by the per-message
handler: the run still exits 0, the queue file is untouched, nothing
counts as processed, and the checkpoint is STILL advanced to the batch's
final `update_id` whenever that grew — so the batch is not refetched and
its messages are lost. -/
theorem C2_queue_write_failure_behavior (env : RunEnv) (us : List Update) (s : Store)
    (hf : ∀ k, env.queueWriteOk k = false) (hsv : env.checkpointSaveOk = true) :
    (run env us s).exitCode = 0
    ∧ (run env us s).store.queue = s.queue
    ∧ (run env us s).processed = 0
    ∧ (run env us s).store.checkpoint =
        (if lastIdFold (load_last_update_id s.checkpoint) us >
             load_last_update_id s.checkpoint
         then some (CheckpointFile.parsed
                (some (lastIdFold (load_last_update_id s.checkpoint) us)))
         else s.checkpoint) := by
  rw [run_allFail env us s hf]
  refine ⟨rfl, rfl, rfl, ?_⟩
  dsimp only
  simp [hsv]

/-- C2 witness: the amended theorem at the counterexample's input. -/
theorem C2_queue_write_failure_behavior_witness :
    (run envQueueFail [updHello] store0).exitCode = 0
    ∧ (run envQueueFail [updHello] store0).store.queue = store0.queue
    ∧ (run envQueueFail [updHello] store0).processed = 0
    ∧ (run envQueueFail [updHello] store0).store.checkpoint
        = some (CheckpointFile.parsed (some 101)) := by
  obtain ⟨h1, h2, h3, h4⟩ := C2_queue_write_failure_behavior envQueueFail [updHello]
    store0 (fun _ => rfl) rfl
  refine ⟨h1, h2, h3, ?_⟩
  rw [h4]
  decide

/-- C3 counterexample: a batch of two kept messages performs TWO queue
write attempts even though no write ever fails — the merge is not one
batched `append_all` per run. -/
theorem C3_counterexample :
    envOkT1.queueWriteOk 0 = true ∧ envOkT1.queueWriteOk 1 = true
    ∧ (run envOkT1 [updHello, updWorld] store0).queueWriteAttempts = 2 := by decide

/-- C3 (amended): the queue merge is one read-modify-write PER KEPT
MESSAGE: with all writes succeeding, the number of queue writes equals
the number of kept records (a missing or unparseable document is treated
as empty, arrival order is preserved); and a failing write is never
retried — with all writes failing, there is still exactly one attempt
per kept record and the queue file is left untouched. -/
theorem C3_per_message_merge (env envF : RunEnv) (us : List Update) (s : Store)
    (hw : ∀ k, env.queueWriteOk k = true) (hf : ∀ k, envF.queueWriteOk k = false) :
    (run env us s).queueWriteAttempts = (keptRecords env us).length
    ∧ queueMessages (run env us s).store.queue
        = queueMessages s.queue ++ keptRecords env us
    ∧ (run envF us s).queueWriteAttempts = (keptRecords envF us).length
    ∧ (run envF us s).store.queue = s.queue := by
  rw [run_allOk env us s hw, run_allFail envF us s hf]
  refine ⟨rfl, ?_, rfl, rfl⟩
  dsimp only
  rw [queueMessages_mergeAllDocs]

/-- C3 witness: the amended theorem on the two-message batch. -/
theorem C3_per_message_merge_witness :
    (run envOkT1 [updHello, updWorld] store0).queueWriteAttempts
      = (keptRecords envOkT1 [updHello, updWorld]).length
    ∧ queueMessages (run envOkT1 [updHello, updWorld] store0).store.queue
        = queueMessages store0.queue ++ keptRecords envOkT1 [updHello, updWorld]
    ∧ (run envQueueFail [updHello, updWorld] store0).queueWriteAttempts
        = (keptRecords envQueueFail [updHello, updWorld]).length
    ∧ (run envQueueFail [updHello, updWorld] store0).store.queue = store0.queue :=
  C3_per_message_merge envOkT1 envQueueFail [updHello, updWorld] store0
    (fun _ => rfl) (fun _ => rfl)

/-- C4 counterexample: processing the same raw message at two different
wall-clock times yields two DIFFERENT records (their `created_at` fields
record the processing time), so normalization is not independent of call
time in every field. -/
theorem C4_counterexample :
    process_message imageEnvOk "2024-01-01T00:00:00" msgHello
      ≠ process_message imageEnvOk "2024-01-02T00:00:00" msgHello := by decide

/-- C4 (amended): normalization is deterministic in every field EXCEPT
`created_at`: two calls at different times agree everywhere else, the
derived id is composed only of the message's `date` and `message_id`, and
`created_at` equals the wall clock of the call. -/
theorem C4_normalization_deterministic (env : ImageEnv) (now now' : String)
    (m : Message) :
    process_message env now' m = { process_message env now m with created_at := now' }
    ∧ (process_message env now m).id = message_id_of m
    ∧ (process_message env now m).created_at = now :=
  ⟨rfl, rfl, rfl⟩

/-- C5: bot-authored messages and messages with neither text, caption nor
photo contribute no record to the queue (the final queue is the original
plus exactly the kept records), while every update's `update_id` —
skipped or not — feeds the `last_id` fold that determines the checkpoint
saved at the end of the run. -/
theorem C5_skipped_messages (env : RunEnv) (us : List Update) (s : Store)
    (hw : ∀ k, env.queueWriteOk k = true) (hsv : env.checkpointSaveOk = true) :
    queueMessages (run env us s).store.queue
      = queueMessages s.queue ++ keptRecords env us
    ∧ (∀ u ∈ us, ∀ m, u.message = some m →
        (m.from_user.is_bot = true ∨
          (truthyStr m.text = false ∧ m.photo.isEmpty = true ∧
            truthyStr m.caption = false)) →
        keptRecord env u = none)
    ∧ (∀ pre u, us = pre ++ [u] →
        lastIdFold (load_last_update_id s.checkpoint) us = u.update_id)
    ∧ (run env us s).store.checkpoint =
        (if lastIdFold (load_last_update_id s.checkpoint) us >
             load_last_update_id s.checkpoint
         then some (CheckpointFile.parsed
                (some (lastIdFold (load_last_update_id s.checkpoint) us)))
         else s.checkpoint) := by
  refine ⟨?_, ?_, ?_, ?_⟩
  · rw [run_allOk env us s hw]
    dsimp only
    rw [queueMessages_mergeAllDocs]
  · intro u _ m hm hskip
    have hsk : skipMessage m = true := by
      rcases hskip with h | ⟨ht, hp, hc⟩
      · simp [skipMessage, h]
      · simp [skipMessage, ht, hp, hc]
    simp [keptRecord, hm, hsk]
  · intro pre u h
    rw [h, lastIdFold_append]
  · rw [run_checkpoint]
    simp [hsv]

/-- C5 witness: a human message followed by a bot message; the bot
message is dropped from the queue but the checkpoint becomes its id
102. -/
theorem C5_skipped_messages_witness :
    queueMessages (run envOkT2 [updHello, updBot] store0).store.queue
      = queueMessages store0.queue ++ keptRecords envOkT2 [updHello, updBot]
    ∧ keptRecord envOkT2 updBot = none
    ∧ lastIdFold (load_last_update_id store0.checkpoint) [updHello, updBot] = 102
    ∧ (run envOkT2 [updHello, updBot] store0).store.checkpoint
        = some (CheckpointFile.parsed (some 102)) := by
  obtain ⟨h1, h2, h3, h4⟩ := C5_skipped_messages envOkT2 [updHello, updBot] store0
    (fun _ => rfl) rfl
  refine ⟨h1, h2 updBot (by decide) msgBot rfl (Or.inl rfl),
    h3 [updHello] updBot rfl, ?_⟩
  rw [h4]
  decide

/-- C6: when attachment resolution or download fails for a kept photo
message, `_process_image` returns `none` rather than raising, the record
is still enqueued text-only (content from the caption, empty image list),
the checkpoint advances past the message, and the run exits 0. -/
theorem C6_attachment_failure_degrades (env : RunEnv) (u : Update) (m : Message)
    (s : Store)
    (hu : u.message = some m)
    (hbot : m.from_user.is_bot = false)
    (hphoto : m.photo ≠ [])
    (htext : m.text = none)
    (hfail : (∀ fid, env.image.getFilePath fid = none) ∨
             (∀ fp, env.image.download fp = none))
    (hw : ∀ k, env.queueWriteOk k = true)
    (hsv : env.checkpointSaveOk = true)
    (hgt : load_last_update_id s.checkpoint < u.update_id) :
    processImage env.image m (message_id_of m) = none
    ∧ (process_message env.image env.now m).content = m.caption.getD ""
    ∧ (process_message env.image env.now m).images = []
    ∧ queueMessages (run env [u] s).store.queue
        = queueMessages s.queue ++ [process_message env.image env.now m]
    ∧ (run env [u] s).store.checkpoint
        = some (CheckpointFile.parsed (some u.update_id))
    ∧ (run env [u] s).exitCode = 0 := by
  have hpi : ∀ mid, processImage env.image m mid = none := by
    intro mid
    unfold processImage
    cases hlast : m.photo.getLast? with
    | none => rfl
    | some p =>
        dsimp only
        rcases hfail with hres | hdl
        · rw [hres p.file_id]
        · cases hgf : env.image.getFilePath p.file_id with
          | none => rfl
          | some fp =>
              dsimp only
              rw [hdl fp]
  have hempty : m.photo.isEmpty = false := by
    cases hp : m.photo with
    | nil => exact absurd hp hphoto
    | cons a l => rfl
  have himg : (process_message env.image env.now m).images = [] := by
    simp [process_message, hempty, hpi]
  have hcontent : (process_message env.image env.now m).content
      = m.caption.getD "" := by
    simp [process_message, contentOf, htext]
  have hsk : skipMessage m = false := by
    simp [skipMessage, hbot, hempty]
  have hkept : keptRecords env [u] = [process_message env.image env.now m] := by
    simp [keptRecords, keptRecord, hu, hsk]
  have hrun := run_allOk env [u] s hw
  have hlastid : lastIdFold (load_last_update_id s.checkpoint) [u]
      = u.update_id := rfl
  refine ⟨hpi _, hcontent, himg, ?_, ?_, ?_⟩
  · rw [hrun]
    dsimp only
    rw [hkept, queueMessages_mergeAllDocs]
  · rw [hrun]
    dsimp only
    rw [hlastid, if_pos ⟨hgt, hsv⟩]
  · rw [hrun]

/-- C6 witness: the spec's id-103 scenario — caption `"pic"`, two photo
variants, download failing — on the empty store. -/
theorem C6_attachment_failure_degrades_witness :
    processImage envPicFail.image msgPic (message_id_of msgPic) = none
    ∧ (process_message envPicFail.image envPicFail.now msgPic).content
        = msgPic.caption.getD ""
    ∧ (process_message envPicFail.image envPicFail.now msgPic).images = []
    ∧ queueMessages (run envPicFail [updPic] store0).store.queue
        = queueMessages store0.queue
          ++ [process_message envPicFail.image envPicFail.now msgPic]
    ∧ (run envPicFail [updPic] store0).store.checkpoint
        = some (CheckpointFile.parsed (some updPic.update_id))
    ∧ (run envPicFail [updPic] store0).exitCode = 0 :=
  C6_attachment_failure_degrades envPicFail updPic msgPic store0 rfl rfl
    (by decide) rfl (Or.inr fun _ => rfl) (fun _ => rfl) rfl (by decide)

/-- C7: the stored checkpoint value — 0 for a missing or unparseable
file — is monotonically non-decreasing across ANY sequence of runs, with
arbitrary batches and arbitrary failure environments. -/
theorem C7_checkpoint_monotone (seq : List (RunEnv × List Update)) (s : Store) :
    load_last_update_id s.checkpoint
      ≤ load_last_update_id (applyRuns seq s).checkpoint
    ∧ load_last_update_id none = 0
    ∧ load_last_update_id (some CheckpointFile.garbage) = 0 := by
  refine ⟨?_, rfl, rfl⟩
  induction seq generalizing s with
  | nil => exact le_refl _
  | cons p rest ih =>
      obtain ⟨e, us⟩ := p
      exact le_trans (load_run_mono e us s) (ih _)

/-- C8: an empty batch terminates successfully with no write at all: the
store (checkpoint and queue files) is returned exactly as it was, the
exit code is 0, and both write counters are 0. -/
theorem C8_empty_batch_noop (env : RunEnv) (s : Store) :
    run env [] s = { store := s, exitCode := 0, processed := 0
                   , queueWriteAttempts := 0, checkpointWriteAttempts := 0 } := rfl

/-- C9 counterexample: offered the variants `big` (size 100) then `tiny`
(size 1), `_process_image` selects `tiny` — the last-listed variant, not
the one with the greatest size. -/
theorem C9_counterexample :
    (processImage imageEnvOk msgPhotosDescending "m9").map ImageInfo.file_size
      = some (some 1)
    ∧ PhotoSize.mk "big" (some 100) ∈ msgPhotosDescending.photo
    ∧ (1 : Int) < 100 := by decide

/-- C9 (amended): attachment persistence selects the LAST variant of the
offered list (`message["photo"][-1]`): whenever it returns an
`ImageInfo`, that info's `file_id` and `file_size` are those of the last
variant.  This is the highest-resolution one only under the source's
convention of listing variants in increasing size. -/
theorem C9_selects_last_variant (env : ImageEnv) (m : Message) (mid : String)
    (info : ImageInfo) (h : processImage env m mid = some info) :
    ∃ p, m.photo.getLast? = some p ∧ info.file_id = p.file_id
      ∧ info.file_size = p.file_size := by
  unfold processImage at h
  cases hlast : m.photo.getLast? with
  | none => rw [hlast] at h; simp at h
  | some p =>
      rw [hlast] at h
      dsimp only at h
      refine ⟨p, rfl, ?_⟩
      cases hgf : env.getFilePath p.file_id with
      | none => rw [hgf] at h; simp at h
      | some fp =>
          rw [hgf] at h
          dsimp only at h
          cases hdl : env.download fp with
          | none => rw [hdl] at h; simp at h
          | some d =>
              rw [hdl] at h
              dsimp only at h
              by_cases hup : env.uploadOk
                  ("static/images/" ++ mid ++ "/" ++ (mid ++ "_" ++ p.file_id ++ ".jpg"))
                  = true
              · rw [if_pos hup] at h
                obtain rfl := Option.some.inj h
                exact ⟨rfl, rfl⟩
              · rw [if_neg hup] at h
                simp at h

/-- C9 witness: on the descending-size variant list the selected info is
that of the last variant `tiny`. -/
theorem C9_selects_last_variant_witness :
    ∃ p, msgPhotosDescending.photo.getLast? = some p
      ∧ (ImageInfo.mk "m9_tiny.jpg" "/images/m9/m9_tiny.jpg" "pic" "tiny"
          (some 1)).file_id = p.file_id
      ∧ (ImageInfo.mk "m9_tiny.jpg" "/images/m9/m9_tiny.jpg" "pic" "tiny"
          (some 1)).file_size = p.file_size :=
  C9_selects_last_variant imageEnvOk msgPhotosDescending "m9"
    (ImageInfo.mk "m9_tiny.jpg" "/images/m9/m9_tiny.jpg" "pic" "tiny" (some 1))
    (by decide)

/-- C10: if saving the checkpoint fails, the error is swallowed: the run
still exits 0, the records merged into the queue stay there, and the
checkpoint file keeps its previous content. -/
theorem C10_checkpoint_save_error_swallowed (env : RunEnv) (us : List Update)
    (s : Store)
    (hw : ∀ k, env.queueWriteOk k = true) (hsv : env.checkpointSaveOk = false) :
    (run env us s).exitCode = 0
    ∧ queueMessages (run env us s).store.queue
        = queueMessages s.queue ++ keptRecords env us
    ∧ (run env us s).store.checkpoint = s.checkpoint := by
  rw [run_allOk env us s hw]
  refine ⟨rfl, ?_, ?_⟩
  · dsimp only
    rw [queueMessages_mergeAllDocs]
  · dsimp only
    simp [hsv]

/-- C10 witness: a one-message run whose checkpoint save fails. -/
theorem C10_checkpoint_save_error_swallowed_witness :
    (run envSaveFailT1 [updWorld] store0).exitCode = 0
    ∧ queueMessages (run envSaveFailT1 [updWorld] store0).store.queue
        = queueMessages store0.queue ++ keptRecords envSaveFailT1 [updWorld]
    ∧ (run envSaveFailT1 [updWorld] store0).store.checkpoint = store0.checkpoint :=
  C10_checkpoint_save_error_swallowed envSaveFailT1 [updWorld] store0
    (fun _ => rfl) rfl

end TBlog
